import Mathlib

/-!
Verification of the Product catalog CRUD service
(repository: tdd-bdd-final-project).

The route layer is embedded from src/service/routes.py. The Product
entity and query layer live in service/models.py, which is not part of
the provided sources; those definitions are modelled from the
specification (sections 3, 4.1, 4.2, 7 of spec.md) and are marked
"Modelled from the spec:" in their doc comments.
-/

namespace ProductService

/-- The closed Category enumeration (spec section 3): a fixed, closed set
of categories; an unrecognized name supplied by a client is an input
error, not a new variant. -/
inductive Category where
  | UNKNOWN
  | CLOTHS
  | FOOD
  | HOUSEWARES
  | AUTOMOTIVE
  | TOOLS
deriving DecidableEq, Repr

/-- The symbolic name of a Category member, as rendered by serialize. -/
def Category.name : Category → String
  | .UNKNOWN => "UNKNOWN"
  | .CLOTHS => "CLOTHS"
  | .FOOD => "FOOD"
  | .HOUSEWARES => "HOUSEWARES"
  | .AUTOMOTIVE => "AUTOMOTIVE"
  | .TOOLS => "TOOLS"

/-- Member lookup by exact name, the embedding of the Python expression
Category[category] in routes.py line 59: returns the member whose name
matches exactly, and nothing for any other string. -/
def Category.fromName : String → Option Category
  | "UNKNOWN" => some .UNKNOWN
  | "CLOTHS" => some .CLOTHS
  | "FOOD" => some .FOOD
  | "HOUSEWARES" => some .HOUSEWARES
  | "AUTOMOTIVE" => some .AUTOMOTIVE
  | "TOOLS" => some .TOOLS
  | _ => none

/-- A JSON-like value appearing in a serialized mapping. -/
inductive JVal where
  | jnull
  | jstr (s : String)
  | jbool (b : Bool)
  | jnum (n : Nat)
deriving DecidableEq, Repr

/-- A JSON-compatible mapping: association list from keys to values. -/
abbrev Mapping := List (String × JVal)

/-- Lookup of a key in a mapping. -/
def mget (m : Mapping) (k : String) : Option JVal :=
  (m.find? (fun kv => kv.1 == k)).map (fun kv => kv.2)

/-- Modelled from the spec: the Product entity of service/models.py
(not in the provided sources). Fields follow spec section 3: id is the
system-generated key (absent until create assigns it); price is an exact
decimal monetary value, represented here by its exact decimal literal so
that no binary floating point is involved; category is always a member
of the closed enumeration. -/
structure Product where
  id : Option Nat
  name : String
  description : String
  price : String
  available : Bool
  category : Category
deriving DecidableEq, Repr

/-- Modelled from the spec: serialize of service/models.py. Produces a
JSON-compatible mapping with keys id, name, description, price,
available, category; price rendered as a string to preserve decimal
exactness; category rendered as its symbolic name, never its ordinal
(spec section 4.1). -/
def Product.serialize (p : Product) : Mapping :=
  [ ("id", match p.id with | some i => .jnum i | none => .jnull),
    ("name", .jstr p.name),
    ("description", .jstr p.description),
    ("price", .jstr p.price),
    ("available", .jbool p.available),
    ("category", .jstr p.category.name) ]

/-- Modelled from the spec: the optional description field. When the
payload carries a string description it is taken; description is the
only optional attribute (spec section 3), so otherwise the receiver
keeps its current description. -/
def descOf (self : Product) (m : Mapping) : String :=
  match mget m "description" with
  | some (.jstr ds) => ds
  | _ => self.description

/-- Modelled from the spec: deserialize of service/models.py (spec
section 4.1). Fails when name is missing or not a string, when available
is present but not of boolean type, when the category value is not a
member of the closed enumeration, or when another required field is
missing, with an error naming the field. On success the mutable fields
are populated from the mapping; the identity of the receiver is not a
payload field, so id is untouched. -/
def Product.deserialize (self : Product) (m : Mapping) : Except String Product :=
  match mget m "name" with
  | none => Except.error "missing name"
  | some (.jstr n) =>
    match mget m "price" with
    | some (.jstr pr) =>
      match mget m "available" with
      | none => Except.error "missing available"
      | some (.jbool b) =>
        match mget m "category" with
        | some (.jstr c) =>
          match Category.fromName c with
          | some cat =>
            Except.ok { self with
              name := n, description := descOf self m,
              price := pr, available := b, category := cat }
          | none => Except.error "invalid category"
        | _ => Except.error "missing category"
      | some _ => Except.error "available is not a boolean"
    | _ => Except.error "missing price"
  | some _ => Except.error "name is not a string"

/-- Modelled from the spec: the Data Store, a single table of Product
rows keyed by id. nextId tracks the next system-generated key. -/
structure DB where
  rows : List Product
  nextId : Nat
deriving DecidableEq, Repr

/-- An id value already assigned by the store is strictly below the next
key to be generated. -/
def idFresh : Option Nat → Nat → Bool
  | none, _ => true
  | some i, n => i < n

/-- Store well-formedness: every stored row carries an id below nextId,
so the next system-generated key is fresh. -/
def DB.wf (db : DB) : Prop :=
  ∀ p ∈ db.rows, idFresh p.id db.nextId = true

instance (db : DB) : Decidable db.wf := by
  unfold DB.wf; infer_instance

/-- Modelled from the spec: create of service/models.py. Inserts a new
row; the Data Store assigns the id (spec sections 3 and 4.1). Returns
the persisted entity together with the new store state. -/
def Product.create (p : Product) (db : DB) : Product × DB :=
  let p2 : Product := { p with id := some db.nextId }
  (p2, { rows := db.rows ++ [p2], nextId := db.nextId + 1 })

/-- Modelled from the spec: find of service/models.py, the exact
primary-key lookup (spec section 4.2). -/
def Product.find (i : Nat) (db : DB) : Option Product :=
  db.rows.find? (fun p => p.id == some i)

/-- Modelled from the spec: all of service/models.py, every row (spec
section 4.2). -/
def Product.all (db : DB) : List Product :=
  db.rows

/-- Modelled from the spec: find_by_name of service/models.py, the
exact, case-sensitive match on name (spec section 4.2). -/
def Product.find_by_name (n : String) (db : DB) : List Product :=
  db.rows.filter (fun p => p.name == n)

/-- Modelled from the spec: find_by_category of service/models.py, the
exact match on the enumerated value (spec section 4.2). -/
def Product.find_by_category (c : Category) (db : DB) : List Product :=
  db.rows.filter (fun p => p.category == c)

/-- Modelled from the spec: find_by_availability of service/models.py,
the exact match on the boolean (spec section 4.2). -/
def Product.find_by_availability (b : Bool) (db : DB) : List Product :=
  db.rows.filter (fun p => p.available == b)

/-- Modelled from the spec: update of service/models.py (spec section
4.1). Requires id already set (otherwise a DataError naming the
precondition); replaces all mutable fields of the existing row; fails
with a DataError if no row with that id exists. -/
def Product.update (p : Product) (db : DB) : Except String DB :=
  match p.id with
  | none => Except.error "update called with no id"
  | some i =>
    if db.rows.any (fun q => q.id == some i) then
      Except.ok { rows := db.rows.map (fun q => if q.id == some i then p else q),
                  nextId := db.nextId }
    else
      Except.error "no row with this id"

/-- Modelled from the spec: delete of service/models.py, removal of the
row by id; a no-op if the row is already absent (spec section 4.1). -/
def Product.delete (p : Product) (db : DB) : DB :=
  { rows := db.rows.filter (fun q => !(q.id == p.id)), nextId := db.nextId }

/-! ## The HTTP route layer, embedded from src/service/routes.py. -/

/-- Python truthiness of an optional query-parameter string, as used by
the guards in list_products (routes.py lines 56, 58, 61): request.args.get
returns None when the parameter is absent, and the empty string is falsy,
so the guard passes exactly when the parameter is present and non-empty. -/
def paramVal : Option String → Option String
  | none => none
  | some s => if s = "" then none else some s

/-- The embedding of routes.py line 62: available.lower() == "true". -/
def parseAvailable (s : String) : Bool :=
  s.toLower == "true"

/-- list_products of routes.py (lines 50 to 66): at most one filter,
chosen by precedence name, then category, then available, else all.
The result is the HTTP status together with the listed products. A
category value that is not a member of the enumeration raises a lookup
error at line 59; its translation to status 400 is modelled from the
spec (the error-handler module of service/common is not in the provided
sources; spec section 6 maps this input error to 400). -/
def list_products (name category available : Option String) (db : DB) :
    Nat × List Product :=
  match paramVal name with
  | some n => (200, Product.find_by_name n db)
  | none =>
    match paramVal category with
    | some c =>
      match Category.fromName c with
      | some cat => (200, Product.find_by_category cat db)
      | none => (400, [])
    | none =>
      match paramVal available with
      | some a => (200, Product.find_by_availability (parseAvailable a) db)
      | none => (200, Product.all db)

/-- create_products of routes.py (lines 31 to 45). The request body is
carried as an optional mapping: none stands for a body that does not
parse as JSON. The content-type check at line 33 runs before the body
is touched, so a non-JSON content type yields 415 with the store
unchanged and no product created; a deserialization failure is a
ValidationError, translated to 400 (spec section 7); on success the
product is created and 201 returned with the persisted entity. -/
def create_products (isJson : Bool) (body : Option Mapping) (db : DB) :
    Nat × DB × Option Product :=
  if !isJson then
    (415, db, none)
  else
    match body with
    | none => (400, db, none)
    | some data =>
      let blank : Product :=
        { id := none, name := "", description := "", price := "",
          available := false, category := .UNKNOWN }
      match blank.deserialize data with
      | Except.error _ => (400, db, none)
      | Except.ok product =>
        let r := product.create db
        (201, r.2, some r.1)

/-- get_products of routes.py (lines 71 to 77): find by id, 404 when
absent, otherwise 200 with the product. -/
def get_products (product_id : Nat) (db : DB) : Nat × Option Product :=
  match Product.find product_id db with
  | none => (404, none)
  | some product => (200, some product)

/-- update_products of routes.py (lines 82 to 92): find by id, 404 when
absent before the body is read; otherwise deserialize the body into the
found product and update. A deserialization failure is a
ValidationError translated to 400 and a failing update a DataError
translated to 500 (spec section 7; the error-handler module is not in
the provided sources). Returns status, resulting store and response
product. -/
def update_products (product_id : Nat) (body : Option Mapping) (db : DB) :
    Nat × DB × Option Product :=
  match Product.find product_id db with
  | none => (404, db, none)
  | some product =>
    match body with
    | none => (400, db, none)
    | some data =>
      match product.deserialize data with
      | Except.error _ => (400, db, none)
      | Except.ok p2 =>
        match p2.update db with
        | Except.error _ => (500, db, none)
        | Except.ok db2 => (200, db2, some p2)

/-- delete_products of routes.py (lines 97 to 104): find by id, 404
when absent with the store unchanged, otherwise delete and 204. -/
def delete_products (product_id : Nat) (db : DB) : Nat × DB :=
  match Product.find product_id db with
  | none => (404, db)
  | some product => (204, product.delete db)

/-! ## Sample data used by witnesses. -/

/-- A sample persisted product, as in the scenario of spec section 8. -/
def prodHammer : Product :=
  { id := some 1, name := "Hammer", description := "steel",
    price := "9.99", available := true, category := .TOOLS }

/-- The sample product with an updated description. -/
def prodHammerUpd : Product :=
  { prodHammer with description := "Updated" }

/-- A sample product not yet persisted. -/
def prodNew : Product :=
  { id := none, name := "Screwdriver", description := "flat head",
    price := "3.50", available := false, category := .TOOLS }

/-- An empty store. -/
def db0 : DB := { rows := [], nextId := 1 }

/-- A store holding the sample product. -/
def db1 : DB := { rows := [prodHammer], nextId := 2 }

/-- A full update payload for the sample product. -/
def data1 : Mapping :=
  [ ("name", .jstr "Hammer"), ("description", .jstr "Updated"),
    ("price", .jstr "9.99"), ("available", .jbool true),
    ("category", .jstr "TOOLS") ]

/-! ## Helper lemmas. -/

/-- Looking a member name back up returns that member. -/
lemma Category.fromName_name (c : Category) : Category.fromName c.name = some c := by
  cases c <;> rfl

/-- deserialize never touches the identity of the receiver. -/
lemma deserialize_id (self r : Product) (m : Mapping)
    (h : self.deserialize m = Except.ok r) : r.id = self.id := by
  unfold Product.deserialize at h
  repeat' split at h
  all_goals simp_all
  subst h
  rfl

/-- A well-formed store has no row carrying the next fresh id. -/
lemma find?_next_none (db : DB) (h : db.wf) :
    db.rows.find? (fun q => q.id == some db.nextId) = none := by
  rw [List.find?_eq_none]
  intro q hq
  have hf := h q hq
  cases hid : q.id with
  | none => simp [hid]
  | some i =>
    rw [hid] at hf
    simp only [idFresh, decide_eq_true_eq] at hf
    simp [hid]
    omega

/-- Replacing the row keyed by an id makes the primary-key lookup for
that id return the replacement, provided some row carried the id. -/
lemma find?_replace (pid : Nat) (p2 : Product) (h2 : (p2.id == some pid) = true) :
    ∀ l : List Product, l.any (fun q => q.id == some pid) = true →
      (l.map (fun q => if q.id == some pid then p2 else q)).find?
        (fun q => q.id == some pid) = some p2 := by
  intro l
  induction l with
  | nil => intro h; cases h
  | cons a t ih =>
    intro h
    by_cases ha : (a.id == some pid) = true
    · simp [List.find?, ha, h2]
    · have ha2 : (a.id == some pid) = false := by simpa using ha
      have ht : t.any (fun q => q.id == some pid) = true := by
        simp only [List.any_cons, Bool.or_eq_true] at h
        exact h.resolve_left ha
      simp only [List.map_cons, List.find?_cons]
      rw [if_neg ha]
      simp only [ha2]
      exact ih ht

/-! ## Claims. -/

/-- C2: for every GET request to /products, at most one filter criterion
is applied, chosen by precedence: a supplied name gives find_by_name,
otherwise a supplied category gives find_by_category, otherwise a
supplied available gives find_by_availability on the parsed boolean,
otherwise all; filters are never combined. -/
theorem list_products_precedence (nm ct av : Option String) (db : DB) :
    (∀ n, paramVal nm = some n →
      list_products nm ct av db = (200, Product.find_by_name n db))
  ∧ (paramVal nm = none → ∀ c cat, paramVal ct = some c →
      Category.fromName c = some cat →
      list_products nm ct av db = (200, Product.find_by_category cat db))
  ∧ (paramVal nm = none → paramVal ct = none → ∀ a, paramVal av = some a →
      list_products nm ct av db
        = (200, Product.find_by_availability (parseAvailable a) db))
  ∧ (paramVal nm = none → paramVal ct = none → paramVal av = none →
      list_products nm ct av db = (200, Product.all db)) := by
  refine ⟨?_, ?_, ?_, ?_⟩ <;> intros <;> simp_all [list_products]

/-- Witness for C2: with all three parameters supplied, only the name
filter is applied. -/
theorem list_products_precedence_witness :
    list_products (some "Hammer") (some "TOOLS") (some "true") db1
      = (200, Product.find_by_name "Hammer" db1) :=
  (list_products_precedence (some "Hammer") (some "TOOLS") (some "true") db1).1
    "Hammer" rfl

/-- C9: for a GET request to /products whose available parameter is the
(non-empty, hence applied) string s, the filter boolean passed to
find_by_availability is the result of comparing the lowercased s to
the string true: it is true exactly when lowercasing s yields that
string, and every other s yields the boolean false with status 200
rather than an error. -/
theorem available_parsing (s : String) (db : DB) (h : s ≠ "") :
    list_products none none (some s) db
      = (200, Product.find_by_availability (parseAvailable s) db)
  ∧ (parseAvailable s = true ↔ s.toLower = "true") := by
  constructor
  · simp [list_products, paramVal, h]
  · simp [parseAvailable]

/-- Witness for C9 at the string TRUE. -/
theorem available_parsing_witness :
    (list_products none none (some "TRUE") db1
      = (200, Product.find_by_availability (parseAvailable "TRUE") db1))
  ∧ (parseAvailable "TRUE" = true ↔ "TRUE".toLower = "true") :=
  available_parsing "TRUE" db1 (by decide)

/-- C10: a query parameter supplied with the empty string value is
treated as if absent, the precedence chain falls through, and in
particular a request with only an empty name returns all products. -/
theorem empty_param_as_absent (nm ct av : Option String) (db : DB) :
    (list_products (some "") ct av db = list_products none ct av db)
  ∧ (list_products nm (some "") av db = list_products nm none av db)
  ∧ (list_products nm ct (some "") db = list_products nm ct none db)
  ∧ (list_products (some "") none none db = (200, Product.all db)) := by
  have h0 : paramVal (some "") = none := by simp [paramVal]
  refine ⟨?_, ?_, ?_, ?_⟩ <;> simp [list_products, h0, paramVal]

/-- C7: a POST request to /products whose body is not JSON
content-typed is answered 415, before the body is touched (the result
does not depend on the body, even an unparseable one), and the store
is unchanged: no product is created. -/
theorem non_json_rejected (body : Option Mapping) (db : DB) :
    create_products false body db = (415, db, none) := rfl

/-- C6: a GET, PUT or DELETE request to /products/id where no stored
row has that id is answered 404, and the store state is unchanged: no
row is created, modified or removed. -/
theorem missing_id_404 (product_id : Nat) (body : Option Mapping) (db : DB)
    (h : Product.find product_id db = none) :
    get_products product_id db = (404, none)
  ∧ update_products product_id body db = (404, db, none)
  ∧ delete_products product_id db = (404, db) := by
  refine ⟨?_, ?_, ?_⟩ <;>
    simp [get_products, update_products, delete_products, h]

/-- Witness for C6 at an id absent from the sample store. -/
theorem missing_id_404_witness :
    get_products 999999 db1 = (404, none)
  ∧ update_products 999999 none db1 = (404, db1, none)
  ∧ delete_products 999999 db1 = (404, db1) :=
  missing_id_404 999999 none db1 (by decide)

/-- Counterexample to C1 as stated: a GET request to /products that
carries the non-empty category value BOGUS, not a member of the
enumeration, but also a non-empty name parameter, is answered 200, not
400: the name filter takes precedence and the category value is never
inspected. -/
theorem invalid_category_counterexample :
    ("BOGUS" ≠ "") ∧ Category.fromName "BOGUS" = none
  ∧ (list_products (some "Hammer") (some "BOGUS") none db1).1 = 200 :=
  ⟨by decide, rfl, rfl⟩

/-- C1 (amended): a GET request to /products carrying a non-empty
category value that is not a member of the closed enumeration, and no
non-empty name parameter, is answered 400, a client error and not a
server error. -/
theorem invalid_category_400 (nm ct av : Option String) (c : String) (db : DB)
    (hnm : paramVal nm = none) (hct : paramVal ct = some c)
    (hc : Category.fromName c = none) :
    (list_products nm ct av db).1 = 400 ∧ (list_products nm ct av db).1 < 500 := by
  simp [list_products, hnm, hct, hc]

/-- Witness for the amended C1 at the category value BOGUS. -/
theorem invalid_category_400_witness :
    (list_products none (some "BOGUS") none db1).1 = 400
  ∧ (list_products none (some "BOGUS") none db1).1 < 500 :=
  invalid_category_400 none (some "BOGUS") none "BOGUS" db1 rfl rfl rfl

/-- C3: serializing any Product and deserializing the result back into
it yields the Product unchanged: name, description, price, available
and category are recovered from the payload, and the id is preserved
whenever it was set (it is preserved unconditionally, since deserialize
never touches the identity of the receiver). -/
theorem serialize_deserialize_round_trip (p : Product) :
    p.deserialize p.serialize = Except.ok p := by
  cases p with
  | mk id name desc price avail cat => cases cat <;> rfl

/-- C5: the three filter lookups return exactly the stored rows whose
field equals the argument, and no others: membership in the result is
equivalent to being a stored row with the matching name (exact,
case-sensitive string equality), category, or availability. -/
theorem filters_exact (db : DB) (q : Product) :
    (∀ n, q ∈ Product.find_by_name n db ↔ q ∈ db.rows ∧ q.name = n)
  ∧ (∀ c, q ∈ Product.find_by_category c db ↔ q ∈ db.rows ∧ q.category = c)
  ∧ (∀ b, q ∈ Product.find_by_availability b db ↔ q ∈ db.rows ∧ q.available = b) := by
  refine ⟨?_, ?_, ?_⟩ <;> intro x <;>
    simp [Product.find_by_name, Product.find_by_category,
      Product.find_by_availability, List.mem_filter]

/-- Witness for C5: the sample product is found by its exact name. -/
theorem filters_exact_witness :
    prodHammer ∈ Product.find_by_name "Hammer" db1
      ↔ prodHammer ∈ db1.rows ∧ prodHammer.name = "Hammer" :=
  (filters_exact db1 prodHammer).1 "Hammer"

/-- C4: on a well-formed store, after create succeeds and assigns an id,
find on that id returns a Product equal to the input in all fields,
the freshly assigned id included. -/
theorem create_then_find (p : Product) (db : DB) (h : db.wf) :
    Product.find db.nextId (Product.create p db).2
      = some (Product.create p db).1
  ∧ (Product.create p db).1.id = some db.nextId
  ∧ (Product.create p db).1.name = p.name
  ∧ (Product.create p db).1.description = p.description
  ∧ (Product.create p db).1.price = p.price
  ∧ (Product.create p db).1.available = p.available
  ∧ (Product.create p db).1.category = p.category := by
  have hnone := find?_next_none db h
  unfold Product.create Product.find
  simp [List.find?_append, hnone, List.find?]

/-- Witness for C4: creating the sample product in the empty store and
reading it back. -/
theorem create_then_find_witness :
    Product.find db0.nextId (Product.create prodNew db0).2
      = some (Product.create prodNew db0).1
  ∧ (Product.create prodNew db0).1.id = some db0.nextId
  ∧ (Product.create prodNew db0).1.name = prodNew.name
  ∧ (Product.create prodNew db0).1.description = prodNew.description
  ∧ (Product.create prodNew db0).1.price = prodNew.price
  ∧ (Product.create prodNew db0).1.available = prodNew.available
  ∧ (Product.create prodNew db0).1.category = prodNew.category :=
  create_then_find prodNew db0 (by decide)

/-- C8: a PUT of a valid payload on a stored product replaces only the
mutable fields (the updated row is exactly the deserialized payload
applied to the found product, whose id deserialize never touches), the
id is the same before and after, the row count is unchanged, every
other row is untouched, and no row beyond the replacement appears. -/
theorem update_preserves_id_and_frame (product_id : Nat) (data : Mapping)
    (db : DB) (p p2 : Product)
    (hf : Product.find product_id db = some p)
    (hd : p.deserialize data = Except.ok p2) :
    p2.id = p.id ∧ p.id = some product_id
  ∧ ∃ db2, update_products product_id (some data) db = (200, db2, some p2)
      ∧ Product.find product_id db2 = some p2
      ∧ db2.rows.length = db.rows.length
      ∧ (∀ q ∈ db.rows, q.id ≠ some product_id → q ∈ db2.rows)
      ∧ (∀ q ∈ db2.rows, q ∈ db.rows ∨ q = p2) := by
  have hid : p2.id = p.id := deserialize_id p p2 data hd
  have hf2 : db.rows.find? (fun q => q.id == some product_id) = some p := hf
  have hpid : p.id = some product_id := by
    have hp := List.find?_some hf2
    simpa using hp
  have hpred : (p.id == some product_id) = true := by simp [hpid]
  have hmem : p ∈ db.rows := List.mem_of_find?_eq_some hf2
  have hany : db.rows.any (fun q => q.id == some product_id) = true :=
    List.any_eq_true.mpr ⟨p, hmem, hpred⟩
  have h2 : (p2.id == some product_id) = true := by simp [hid, hpid]
  refine ⟨hid, hpid,
    { rows := db.rows.map (fun q => if q.id == some product_id then p2 else q),
      nextId := db.nextId }, ?_, ?_, ?_, ?_, ?_⟩
  · unfold update_products Product.update
    rw [hf]
    simp only [hd, hid, hpid, hany, if_true]
  · exact find?_replace product_id p2 h2 db.rows hany
  · simp
  · intro q hq hne
    refine List.mem_map.mpr ⟨q, hq, ?_⟩
    have hqf : (q.id == some product_id) = false := by
      simp only [beq_eq_false_iff_ne, ne_eq]
      exact hne
    simp [hqf]
  · intro q hq
    rcases List.mem_map.mp hq with ⟨r, hr, hfr⟩
    by_cases hc : (r.id == some product_id) = true
    · right
      rw [← hfr]
      simp [hc]
    · left
      have hcf : (r.id == some product_id) = false := by simpa using hc
      rw [← hfr]
      simp [hcf]
      exact hr

/-- Witness for C8: updating the description of the sample product. -/
theorem update_preserves_id_and_frame_witness :
    prodHammerUpd.id = prodHammer.id ∧ prodHammer.id = some 1
  ∧ ∃ db2, update_products 1 (some data1) db1 = (200, db2, some prodHammerUpd)
      ∧ Product.find 1 db2 = some prodHammerUpd
      ∧ db2.rows.length = db1.rows.length
      ∧ (∀ q ∈ db1.rows, q.id ≠ some 1 → q ∈ db2.rows)
      ∧ (∀ q ∈ db2.rows, q ∈ db1.rows ∨ q = prodHammerUpd) :=
  update_preserves_id_and_frame 1 data1 db1 prodHammer prodHammerUpd rfl rfl

end ProductService
